import Mathlib

/-!
Shallow embedding of curtin's `curtin/block/mkfs.py` and `curtin/gpg.py`.

External collaborators (process execution `util.subp`, tool lookup
`util.which`, platform identification `util.lsb_release`, logging) are
modelled as an explicit environment; the functions of the two modules are
translated line by line.  Python exceptions become an error type carried in
`Except`; the sequence of collaborator invocations is returned as an explicit
event trace so that claims about "no process is executed" or "deleteKey is
invoked exactly once" are statable.
-/

namespace Curtin

/-- Python exception kinds that the embedded code can raise.
`valueError` covers every `raise ValueError(...)` in the source;
`typeError` arises from Python-level `%`-formatting errors;
`attributeError` arises from calling a method on `None`. -/
inductive PyError where
  | valueError (msg : String)
  | typeError (msg : String)
  | attributeError (msg : String)
deriving DecidableEq, Repr

/-- Python `%`-formatting restricted to `%s` conversions, which is the only
conversion the source uses.  Formatting with fewer arguments than
placeholders raises `TypeError("not enough arguments for format string")`;
leftover arguments raise a `TypeError` as well (CPython semantics). -/
def pyFormatAux : List Char → List String → Except PyError String
  | [], [] => .ok ""
  | [], _ :: _ => .error (.typeError "not all arguments converted during string formatting")
  | '%' :: 's' :: _, [] => .error (.typeError "not enough arguments for format string")
  | '%' :: 's' :: rest, a :: args =>
    match pyFormatAux rest args with
    | .ok r => .ok (a ++ r)
    | .error e => .error e
  | c :: rest, args =>
    match pyFormatAux rest args with
    | .ok r => .ok (String.mk [c] ++ r)
    | .error e => .error e

/-- `fmt % args` for a Python format string using only `%s`. -/
def pyFormat (fmt : String) (args : List String) : Except PyError String :=
  pyFormatAux fmt.data args

/-- `mkfs_commands` dict of mkfs.py: fstype → external tool name. -/
def mkfs_commands : String → Option String
  | "btrfs" => some "mkfs.btrfs"
  | "ext2" => some "mkfs.ext2"
  | "ext3" => some "mkfs.ext3"
  | "ext4" => some "mkfs.ext4"
  | "fat" => some "mkfs.fat"
  | "fat12" => some "mkfs.fat"
  | "fat16" => some "mkfs.fat"
  | "fat32" => some "mkfs.fat"
  | "jfs" => some "jfs_mkfs"
  | "ntfs" => some "mkntfs"
  | "reiserfs" => some "mkfs.reiserfs"
  | "swap" => some "mkswap"
  | "xfs" => some "mkfs.xfs"
  | _ => none

/-- `specific_to_family` dict of mkfs.py. -/
def specific_to_family : String → Option String
  | "ext2" => some "ext"
  | "ext3" => some "ext"
  | "ext4" => some "ext"
  | "fat12" => some "fat"
  | "fat16" => some "fat"
  | "fat32" => some "fat"
  | _ => none

/-- `specific_to_family.get(fstype, fstype)` of mkfs.py line 127. -/
def fs_family_of (fstype : String) : String :=
  (specific_to_family fstype).getD fstype

/-- `label_length_limits` dict of mkfs.py. -/
def label_length_limits : String → Option Nat
  | "btrfs" => some 256
  | "ext" => some 16
  | "fat" => some 11
  | "jfs" => some 16
  | "ntfs" => some 32
  | "reiserfs" => some 16
  | "swap" => some 15
  | "xfs" => some 12
  | _ => none

/-- `family_flag_mappings["label"]`: family → concrete label token. -/
def label_flags : String → Option String
  | "btrfs" => some "--label"
  | "ext" => some "-L"
  | "fat" => some "-n"
  | "jfs" => some "-L"
  | "ntfs" => some "--label"
  | "reiserfs" => some "--label"
  | "swap" => some "--label"
  | "xfs" => some "-L"
  | _ => none

/-- `family_flag_mappings["uuid"]`. -/
def uuid_flags : String → Option String
  | "btrfs" => some "--uuid"
  | "ext" => some "-U"
  | "reiserfs" => some "--uuid"
  | "swap" => some "--uuid"
  | _ => none

/-- `family_flag_mappings["force"]`. -/
def force_flags : String → Option String
  | "btrfs" => some "--force"
  | "ext" => some "-F"
  | "ntfs" => some "--force"
  | "reiserfs" => some "-f"
  | "swap" => some "--force"
  | "xfs" => some "-f"
  | _ => none

/-- `family_flag_mappings["fatsize"]`. -/
def fatsize_flags : String → Option String
  | "fat" => some "-F"
  | _ => none

/-- `family_flag_mappings["quiet"]`. -/
def quiet_flags : String → Option String
  | "ext" => some "-q"
  | "ntfs" => some "-q"
  | "reiserfs" => some "-q"
  | "xfs" => some "--quiet"
  | _ => none

/-- The outer `family_flag_mappings` dict: logical flag name → family map. -/
def family_flag_mappings : String → Option (String → Option String)
  | "label" => some label_flags
  | "uuid" => some uuid_flags
  | "force" => some force_flags
  | "fatsize" => some fatsize_flags
  | "quiet" => some quiet_flags
  | _ => none

/-- `get_flag_mapping(flag_name, fs_family, param=None, strict=False)` of
mkfs.py lines 89-103.  Note on the strict branch (source lines 96-98): the
source text is `raise ValueError("flag '%s' not supported by fs family '%s'"
% flag_name, fs_family)`; the `%` operator binds tighter than the argument
comma, so CPython first evaluates the two-placeholder format string against
the single argument `flag_name`, which raises
`TypeError("not enough arguments for format string")` before any
`ValueError` is constructed.  The embedding keeps that evaluation order. -/
def get_flag_mapping (flag_name fs_family : String) (param : Option String)
    (strict : Bool) : Except PyError (List String) :=
  match family_flag_mappings flag_name with
  | none =>
    match pyFormat "unsupported flag \x27%s\x27" [flag_name] with
    | .ok msg => .error (.valueError msg)
    | .error e => .error e
  | some flag_sym_families =>
    match flag_sym_families fs_family with
    | none =>
      if strict then
        match pyFormat "flag \x27%s\x27 not supported by fs family \x27%s\x27"
            [flag_name] with
        | .ok msg => .error (.valueError msg)
        | .error e => .error e
      else .ok []
    | some flag_sym =>
      .ok (flag_sym :: (match param with | none => [] | some pval => [pval]))

/-- `string.ascii_letters`. -/
def ascii_letters : String :=
  "abcdefghijklmnopqrstuvwxyzABCDEFGHIJKLMNOPQRSTUVWXYZ"

/-- Python `s.strip(chars)`: remove the longest run of characters of `chars`
from both ends of `s`. -/
def pyStrip (s chars : String) : String :=
  String.mk (((s.data.dropWhile (chars.data.contains ·)).reverse.dropWhile
    (chars.data.contains ·)).reverse)

/-- Python slicing `s[:n]`. -/
def pyTruncate (s : String) (n : Nat) : String :=
  String.mk (s.data.take n)

/-- The message of the strict label-length `ValueError` in mkfs.py lines
147-149.  The backslash line continuation inside the string literal keeps
the 33 spaces of indentation of the continuation line in the message. -/
def label_too_long_msg (path fstype : String) (limit : Nat) : String :=
  "length of fs label for \x27" ++ path ++
    "\x27 exceeds max                                  allowed for fstype \x27" ++
    fstype ++ "\x27. max is \x27" ++ toString limit ++ "\x27"

/-- The collaborators `mkfs` consults: `os.path.exists`, `util.which` and
`util.lsb_release()["codename"]`. -/
structure MkfsEnv where
  pathExists : String → Bool
  which : String → Option String
  lsbCodename : String

/-- Observable collaborator invocations made by `mkfs`. -/
inductive MkfsEvent where
  | whichCall (tool : String)
  | lsbCall
  | subpCall (cmd : List String)
deriving DecidableEq, Repr

/-- The force-flag step of `mkfs` (source lines 137-142): "On precise
mkfs.btrfs does not have a force flag, though it does in later releases",
so under that platform codename and fstype "btrfs" nothing is added and
`get_flag_mapping` is not consulted. -/
def mkfs_force_arg (env : MkfsEnv) (fstype : String) (strict force : Bool) :
    Except PyError (List String) :=
  if force then
    if env.lsbCodename = "precise" ∧ fstype = "btrfs" then .ok []
    else get_flag_mapping "force" (fs_family_of fstype) none strict
  else .ok []

/-- The label step of `mkfs` (source lines 143-153).
`label_length_limits.get` returning `None` would make `len(label) > limit`
a Python 3 `TypeError`; that branch is unreachable for any fstype accepted
by `mkfs_commands`, whose families all have a limit. -/
def mkfs_label_arg (p fstype : String) (strict : Bool)
    (label : Option String) : Except PyError (List String) :=
  match label with
  | none => .ok []
  | some lab =>
    match label_length_limits (fs_family_of fstype) with
    | none => .error (.typeError "unorderable types: int and NoneType")
    | some limit =>
      if limit < lab.length then
        if strict then
          .error (.valueError (label_too_long_msg p fstype limit))
        else
          get_flag_mapping "label" (fs_family_of fstype)
            (some (pyTruncate lab limit)) strict
      else
        get_flag_mapping "label" (fs_family_of fstype) (some lab) strict

/-- The uuid step of `mkfs` (source lines 154-156). -/
def mkfs_uuid_arg (fstype : String) (strict : Bool) (uuid : Option String) :
    Except PyError (List String) :=
  match uuid with
  | none => .ok []
  | some u => get_flag_mapping "uuid" (fs_family_of fstype) (some u) strict

/-- The fatsize step of `mkfs` (source lines 157-161):
`fat_size = fstype.strip(string.ascii_letters)`, appended only when the
stripped suffix is one of "12", "16", "32". -/
def mkfs_fat_arg (fstype : String) (strict : Bool) :
    Except PyError (List String) :=
  if fs_family_of fstype = "fat" then
    let fat_size := pyStrip fstype ascii_letters
    if fat_size ∈ (["12", "16", "32"] : List String) then
      get_flag_mapping "fatsize" (fs_family_of fstype) (some fat_size) strict
    else .ok []
  else .ok []

/-- `mkfs(path, fstype, strict=False, label=None, uuid=None, force=False)` of
mkfs.py lines 106-164.  The result is the assembled command handed to
`util.subp` (whose own outcome belongs to the execution collaborator),
paired with the trace of collaborator calls; an error result models the
exception raised, with nothing executed.  The four flag steps run in source
order, so the first failing step determines the exception. -/
def mkfs (env : MkfsEnv) (path : Option String) (fstype : String)
    (strict : Bool) (label uuid : Option String) (force : Bool) :
    Except PyError (List String) × List MkfsEvent :=
  match path with
  | none => (.error (.valueError "invalid block dev path \x27None\x27"), [])
  | some p =>
    if env.pathExists p = false then
      (.error (.valueError ("\x27" ++ p ++ "\x27: no such file or directory")), [])
    else
      match mkfs_commands fstype with
      | none =>
        (.error (.valueError ("unsupported fs type \x27" ++ fstype ++ "\x27")), [])
      | some mkfs_cmd =>
        match env.which mkfs_cmd with
        | none =>
          (.error (.valueError ("need \x27" ++ mkfs_cmd ++
            "\x27 but it could not be found")), [MkfsEvent.whichCall mkfs_cmd])
        | some _ =>
          let result : Except PyError (List String) :=
            match mkfs_force_arg env fstype strict force with
            | .error e => .error e
            | .ok f =>
              match mkfs_label_arg p fstype strict label with
              | .error e => .error e
              | .ok l =>
                match mkfs_uuid_arg fstype strict uuid with
                | .error e => .error e
                | .ok u =>
                  match mkfs_fat_arg fstype strict with
                  | .error e => .error e
                  | .ok ft => .ok ([mkfs_cmd] ++ f ++ l ++ u ++ ft ++ [p])
          (result,
            [MkfsEvent.whichCall mkfs_cmd] ++
              (if force then [MkfsEvent.lsbCall] else []) ++
              (match result with
               | .ok cmd => [MkfsEvent.subpCall cmd]
               | .error _ => []))

/-- The collaborator behaviour `gpg.py` runs against: the outcome of each
`util.subp` invocation, indexed for exports by how many `gpg --export` calls
happened before (the function makes at most two).  `.ok s` is the captured
stdout; `.error e` is a `ProcessExecutionError` rendered as the string `e`. -/
structure GpgWorld where
  exportSubp : Nat → Except String String
  recvSubp : Except String Unit
  deleteSubp : Except String Unit

/-- Observable invocations of the three gpg sub-operations. -/
inductive GpgEvent where
  | exportCall (key : String)
  | recvCall (key keyserver : String)
  | deleteCall (key : String)
deriving DecidableEq, Repr

/-- Python `s.rstrip("\n")`: drop every trailing newline character. -/
def rstripNL (s : String) : String :=
  String.mk (s.data.reverse.dropWhile (· = '\n')).reverse

/-- `armour.rstrip("\n")` where `armour` may be `None`: Python raises
`AttributeError` on `None`. -/
def pyRstripNL : Option String → Except PyError String
  | some s => .ok (rstripNL s)
  | none => .error (.attributeError
      "\x27NoneType\x27 object has no attribute \x27rstrip\x27")

/-- Python truthiness of an optional string: `None` and `""` are falsy. -/
def truthyStr : Option String → Bool
  | none => false
  | some s => s != ""

/-- `gpg_export_armour(key)` of gpg.py lines 27-36: on
`ProcessExecutionError` the failure is logged at debug level and `None` is
returned; otherwise the captured stdout is returned.  `n` indexes which
`gpg --export` invocation this is in the enclosing call. -/
def gpg_export_armour (w : GpgWorld) (n : Nat) (key : String) :
    Option String × List GpgEvent :=
  match w.exportSubp n with
  | .ok armour => (some armour, [GpgEvent.exportCall key])
  | .error _ => (none, [GpgEvent.exportCall key])

/-- The message of the `ValueError` raised by `gpg_recv_key`:
`'Failed to import key "%s" from server "%s" - error %s' % (key, keyserver,
error)`. -/
def recv_fail_msg (key keyserver err : String) : String :=
  "Failed to import key \"" ++ key ++ "\" from server \"" ++ keyserver ++
    "\" - error " ++ err

/-- `gpg_recv_key(key, keyserver)` of gpg.py lines 39-48: a
`ProcessExecutionError` is converted into a `ValueError` naming the key, the
keyserver and the underlying error. -/
def gpg_recv_key (w : GpgWorld) (key keyserver : String) :
    Except PyError Unit × List GpgEvent :=
  match w.recvSubp with
  | .ok _ => (.ok (), [GpgEvent.recvCall key keyserver])
  | .error err =>
    (.error (.valueError (recv_fail_msg key keyserver err)),
      [GpgEvent.recvCall key keyserver])

/-- `gpg_delete_key(key)` of gpg.py lines 51-57: a failing delete is logged
as a warning and swallowed, so from the caller's point of view the call
always returns; only the invocation itself is observable. -/
def gpg_delete_key (_w : GpgWorld) (key : String) : List GpgEvent :=
  [GpgEvent.deleteCall key]

/-- `gpg_getkeybyid(keyid, keyserver="keyserver.ubuntu.com")` of gpg.py
lines 60-74.  `if not armour` tests Python falsiness, so both a failed
export (`None`) and an exported empty string take the receive path.  The
`try`/`except ValueError`/`finally` block re-raises the receive failure
after the `finally` clause has run `gpg_delete_key`; the final
`return armour.rstrip("\n")` sits outside the `try`, so it runs after the
cleanup and raises `AttributeError` when `armour` is still `None`. -/
def gpg_getkeybyid (w : GpgWorld) (keyid : String)
    (keyserver : String := "keyserver.ubuntu.com") :
    Except PyError String × List GpgEvent :=
  let armour := (gpg_export_armour w 0 keyid).1
  let ev1 := (gpg_export_armour w 0 keyid).2
  if truthyStr armour = false then
    let ev2 := (gpg_recv_key w keyid keyserver).2
    match (gpg_recv_key w keyid keyserver).1 with
    | .error e =>
      -- except ValueError: LOG.exception(...); raise -- finally: delete
      (.error e, ev1 ++ ev2 ++ gpg_delete_key w keyid)
    | .ok _ =>
      let armour2 := (gpg_export_armour w 1 keyid).1
      let ev3 := (gpg_export_armour w 1 keyid).2
      (pyRstripNL armour2, ev1 ++ ev2 ++ ev3 ++ gpg_delete_key w keyid)
  else
    (pyRstripNL armour, ev1)

/-- Resolving a flag that has a token for the family returns the token,
followed by the parameter when one is given, in both modes. -/
theorem get_flag_mapping_resolved (flag : String) (fmap : String → Option String)
    (hflag : family_flag_mappings flag = some fmap) (fam tok : String)
    (h : fmap fam = some tok) (param : Option String) (strict : Bool) :
    get_flag_mapping flag fam param strict =
      .ok (tok :: (match param with | none => [] | some pval => [pval])) := by
  unfold get_flag_mapping
  rw [hflag]
  dsimp only
  rw [h]

/-- C1: the claim reads the strict branch of `get_flag_mapping` as raising a
`ValueError` (the spec's UnsupportedFlagError) naming the flag and the
family.  The code instead raises
`TypeError("not enough arguments for format string")`: on lines 97-98 the
`%` operator is applied to `flag_name` alone, with `fs_family` passed as a
stray second argument to `ValueError`, so formatting the two-placeholder
string fails first.  Evaluated here at the in-scope input
`("uuid", "fat")` — "uuid" is in the flag table and has no token for family
"fat" — together with the correct non-strict behaviour (empty sequence). -/
theorem c1_strict_unsupported_flag_is_typeerror :
    family_flag_mappings "uuid" = some uuid_flags ∧
    uuid_flags "fat" = none ∧
    get_flag_mapping "uuid" "fat" none true =
      .error (.typeError "not enough arguments for format string") ∧
    get_flag_mapping "uuid" "fat" none false = .ok [] :=
  ⟨rfl, rfl, rfl, rfl⟩

/-- Once path, tool name and tool location check out, the command `mkfs`
executes is the tool followed by the four flag steps in source order and the
path, the first failing step determining the exception. -/
theorem mkfs_cmd_eq (env : MkfsEnv) (p fstype tool w : String) (strict : Bool)
    (label uuid : Option String) (force : Bool)
    (hp : env.pathExists p = true) (hc : mkfs_commands fstype = some tool)
    (hw : env.which tool = some w) :
    (mkfs env (some p) fstype strict label uuid force).1 =
      match mkfs_force_arg env fstype strict force with
      | .error e => .error e
      | .ok f =>
        match mkfs_label_arg p fstype strict label with
        | .error e => .error e
        | .ok l =>
          match mkfs_uuid_arg fstype strict uuid with
          | .error e => .error e
          | .ok u =>
            match mkfs_fat_arg fstype strict with
            | .error e => .error e
            | .ok ft => .ok ([tool] ++ f ++ l ++ u ++ ft ++ [p]) := by
  simp only [mkfs, hp, hc, hw]
  rw [if_neg (by decide)]

/-- The fatsize step never fails: it contributes `["-F", suffix]` exactly
when the family is "fat" and the stripped suffix is 12, 16 or 32, and
nothing otherwise. -/
theorem mkfs_fat_arg_eq (fstype : String) (strict : Bool) :
    mkfs_fat_arg fstype strict =
      .ok (if fs_family_of fstype = "fat" ∧
            pyStrip fstype ascii_letters ∈ (["12", "16", "32"] : List String)
          then ["-F", pyStrip fstype ascii_letters] else []) := by
  unfold mkfs_fat_arg
  by_cases hfam : fs_family_of fstype = "fat"
  · rw [if_pos hfam]
    by_cases hsz : pyStrip fstype ascii_letters ∈ (["12", "16", "32"] : List String)
    · rw [if_pos hsz, if_pos ⟨hfam, hsz⟩, hfam,
        get_flag_mapping_resolved "fatsize" fatsize_flags rfl "fat" "-F" rfl]
    · rw [if_neg hsz, if_neg (fun h => hsz h.2)]
  · rw [if_neg hfam, if_neg (fun h => hfam h.1)]

/-- C8: a null path, or a path failing the existence check, raises the
`InvalidPathError` (`ValueError`) immediately; the empty event trace shows
that no tool lookup and no process execution happen in that case. -/
theorem c8_invalid_path_before_execution :
    (∀ (env : MkfsEnv) fstype strict label uuid force,
      mkfs env none fstype strict label uuid force =
        (.error (.valueError "invalid block dev path \x27None\x27"), [])) ∧
    (∀ (env : MkfsEnv) p fstype strict label uuid force,
      env.pathExists p = false →
      mkfs env (some p) fstype strict label uuid force =
        (.error (.valueError ("\x27" ++ p ++ "\x27: no such file or directory")),
          [])) := by
  constructor
  · intro env fstype strict label uuid force
    rfl
  · intro env p fstype strict label uuid force h
    simp [mkfs, h]

/-- A concrete environment where no path exists. -/
def envMissing : MkfsEnv :=
  ⟨fun _ => false, fun _ => none, "xenial"⟩

/-- Witness for `c8_invalid_path_before_execution` at a concrete
environment and path. -/
theorem c8_invalid_path_before_execution_witness :
    mkfs envMissing (some "/dev/vdb1") "ext4" false none none false =
      (.error (.valueError ("\x27" ++ "/dev/vdb1" ++
        "\x27: no such file or directory")), []) :=
  c8_invalid_path_before_execution.2 envMissing "/dev/vdb1" "ext4" false
    none none false rfl

/-- C4: with force requested, the combination (codename "precise",
fstype "btrfs") appends no force flag and raises no error in either mode —
the resulting command is just the tool and the path; in every other
(platform, type) combination the force flag is resolved for the family via
`get_flag_mapping` and its tokens are appended right after the tool (an
error of the resolution, which only strict mode can produce, propagates). -/
theorem c4_force_flag_special_case :
    (∀ (env : MkfsEnv) (p w : String) (strict : Bool),
      env.pathExists p = true → env.which "mkfs.btrfs" = some w →
      env.lsbCodename = "precise" →
      (mkfs env (some p) "btrfs" strict none none true).1 =
        .ok ["mkfs.btrfs", p]) ∧
    (∀ (env : MkfsEnv) (p fstype tool w : String) (strict : Bool),
      env.pathExists p = true → mkfs_commands fstype = some tool →
      env.which tool = some w →
      ¬(env.lsbCodename = "precise" ∧ fstype = "btrfs") →
      (∀ toks,
        get_flag_mapping "force" (fs_family_of fstype) none strict = .ok toks →
        ∃ tail, (mkfs env (some p) fstype strict none none true).1 =
          .ok ([tool] ++ toks ++ tail ++ [p])) ∧
      (∀ e,
        get_flag_mapping "force" (fs_family_of fstype) none strict = .error e →
        (mkfs env (some p) fstype strict none none true).1 = .error e)) := by
  constructor
  · intro env p w strict hp hw hcode
    rw [mkfs_cmd_eq env p "btrfs" "mkfs.btrfs" w strict none none true hp rfl hw]
    have hforce : mkfs_force_arg env "btrfs" strict true = .ok [] := by
      unfold mkfs_force_arg
      rw [if_pos rfl, if_pos ⟨hcode, rfl⟩]
    rw [hforce, show mkfs_label_arg p "btrfs" strict none = .ok [] from rfl,
      show mkfs_uuid_arg "btrfs" strict none = .ok [] from rfl,
      show mkfs_fat_arg "btrfs" strict = .ok [] from rfl]
    rfl
  · intro env p fstype tool w strict hp hc hw hnb
    have key := mkfs_cmd_eq env p fstype tool w strict none none true hp hc hw
    have hforce : mkfs_force_arg env fstype strict true =
        get_flag_mapping "force" (fs_family_of fstype) none strict := by
      unfold mkfs_force_arg
      rw [if_pos rfl, if_neg hnb]
    constructor
    · intro toks htoks
      refine ⟨(if fs_family_of fstype = "fat" ∧
          pyStrip fstype ascii_letters ∈ (["12", "16", "32"] : List String)
        then ["-F", pyStrip fstype ascii_letters] else []), ?_⟩
      rw [key, hforce, htoks,
        show mkfs_label_arg p fstype strict none = .ok [] from rfl,
        show mkfs_uuid_arg fstype strict none = .ok [] from rfl,
        mkfs_fat_arg_eq]
      simp
    · intro e he
      rw [key, hforce, he]

/-- A concrete environment on the legacy "precise" release where every path
exists and every tool is found at its own name. -/
def envPrecise : MkfsEnv :=
  ⟨fun _ => true, fun t => some t, "precise"⟩

/-- A concrete environment on a later release. -/
def envXenial : MkfsEnv :=
  ⟨fun _ => true, fun t => some t, "xenial"⟩

/-- Witness for `c4_force_flag_special_case`: on "precise", forced btrfs
builds a command with no `--force`; on "xenial", forced ext4 gets `-F`. -/
theorem c4_force_flag_special_case_witness :
    (mkfs envPrecise (some "/dev/vdb") "btrfs" true none none true).1 =
      .ok ["mkfs.btrfs", "/dev/vdb"] ∧
    ∃ tail, (mkfs envXenial (some "/dev/vdb") "ext4" true none none true).1 =
      .ok (["mkfs.ext4"] ++ ["-F"] ++ tail ++ ["/dev/vdb"]) :=
  ⟨c4_force_flag_special_case.1 envPrecise "/dev/vdb" "mkfs.btrfs" true
      rfl rfl rfl,
    (c4_force_flag_special_case.2 envXenial "/dev/vdb" "ext4" "mkfs.ext4"
      "mkfs.ext4" true rfl rfl rfl (by simp)).1 ["-F"] rfl⟩

/-- C6: for a FAT-family fstype the assembled command carries
`["-F", suffix]` exactly when the suffix of the fstype, with ascii letters
stripped, is "12", "16" or "32", and nothing (with no error, in either
mode) otherwise. -/
theorem c6_fatsize_flag :
    ∀ (env : MkfsEnv) (p fstype tool w : String) (strict : Bool),
      env.pathExists p = true → fs_family_of fstype = "fat" →
      mkfs_commands fstype = some tool → env.which tool = some w →
      (mkfs env (some p) fstype strict none none false).1 =
        .ok ([tool] ++
          (if pyStrip fstype ascii_letters ∈ (["12", "16", "32"] : List String)
           then ["-F", pyStrip fstype ascii_letters] else []) ++ [p]) := by
  intro env p fstype tool w strict hp hfam hc hw
  rw [mkfs_cmd_eq env p fstype tool w strict none none false hp hc hw]
  rw [show mkfs_force_arg env fstype strict false = .ok [] from rfl,
    show mkfs_label_arg p fstype strict none = .ok [] from rfl,
    show mkfs_uuid_arg fstype strict none = .ok [] from rfl,
    mkfs_fat_arg_eq]
  simp [hfam]

/-- Witness for `c6_fatsize_flag` at fstype "fat32" (suffix kept) and
"fat" (empty suffix, no flag). -/
theorem c6_fatsize_flag_witness :
    (mkfs envXenial (some "/dev/sdc1") "fat32" false none none false).1 =
      .ok (["mkfs.fat"] ++
        (if pyStrip "fat32" ascii_letters ∈ (["12", "16", "32"] : List String)
         then ["-F", pyStrip "fat32" ascii_letters] else []) ++ ["/dev/sdc1"]) ∧
    (mkfs envXenial (some "/dev/sdc1") "fat" false none none false).1 =
      .ok (["mkfs.fat"] ++
        (if pyStrip "fat" ascii_letters ∈ (["12", "16", "32"] : List String)
         then ["-F", pyStrip "fat" ascii_letters] else []) ++ ["/dev/sdc1"]) :=
  ⟨c6_fatsize_flag envXenial "/dev/sdc1" "fat32" "mkfs.fat" "mkfs.fat" false
      rfl rfl rfl rfl,
    c6_fatsize_flag envXenial "/dev/sdc1" "fat" "mkfs.fat" "mkfs.fat" false
      rfl rfl rfl rfl⟩

/-- C5: with a label longer than the family limit L (length L+k, k>0),
non-strict mode appends the label token with the label truncated to exactly
L characters and the command ends with the path; strict mode raises the
`ValueError` naming the path, the fstype and the limit before any flag is
resolved (so nothing is truncated and no command is assembled). -/
theorem c5_label_truncation :
    (∀ (env : MkfsEnv) (p fstype tool w ltok lab : String) (L k : Nat),
      env.pathExists p = true → mkfs_commands fstype = some tool →
      env.which tool = some w →
      label_length_limits (fs_family_of fstype) = some L →
      label_flags (fs_family_of fstype) = some ltok →
      lab.length = L + k → 0 < k →
      ∃ tail, (mkfs env (some p) fstype false (some lab) none false).1 =
          .ok ([tool] ++ [ltok, pyTruncate lab L] ++ tail ++ [p]) ∧
        (pyTruncate lab L).length = L) ∧
    (∀ (env : MkfsEnv) (p fstype tool w lab : String) (L k : Nat),
      env.pathExists p = true → mkfs_commands fstype = some tool →
      env.which tool = some w →
      label_length_limits (fs_family_of fstype) = some L →
      lab.length = L + k → 0 < k →
      (mkfs env (some p) fstype true (some lab) none false).1 =
        .error (.valueError (label_too_long_msg p fstype L)) ∧
      ∃ a b c d, label_too_long_msg p fstype L =
        a ++ p ++ b ++ fstype ++ c ++ toString L ++ d) := by
  constructor
  · intro env p fstype tool w ltok lab L k hp hc hw hL hltok hlen hk
    have hlt : L < lab.length := by
      rw [hlen]; exact Nat.lt_add_of_pos_right hk
    have hlabel : mkfs_label_arg p fstype false (some lab) =
        .ok [ltok, pyTruncate lab L] := by
      unfold mkfs_label_arg
      rw [hL]
      dsimp only
      rw [if_pos hlt, if_neg (by decide),
        get_flag_mapping_resolved "label" label_flags rfl
          (fs_family_of fstype) ltok hltok (some (pyTruncate lab L)) false]
    refine ⟨(if fs_family_of fstype = "fat" ∧
        pyStrip fstype ascii_letters ∈ (["12", "16", "32"] : List String)
      then ["-F", pyStrip fstype ascii_letters] else []), ?_, ?_⟩
    · rw [mkfs_cmd_eq env p fstype tool w false (some lab) none false hp hc hw,
        show mkfs_force_arg env fstype false false = .ok [] from rfl, hlabel,
        show mkfs_uuid_arg fstype false none = .ok [] from rfl,
        mkfs_fat_arg_eq]
      simp
    · have h1 : (pyTruncate lab L).length = (lab.data.take L).length := rfl
      have h2 : lab.data.length = L + k := hlen
      rw [h1, List.length_take, h2]
      exact Nat.min_eq_left (Nat.le_add_right _ _)
  · intro env p fstype tool w lab L k hp hc hw hL hlen hk
    have hlt : L < lab.length := by
      rw [hlen]; exact Nat.lt_add_of_pos_right hk
    have hlabel : mkfs_label_arg p fstype true (some lab) =
        .error (.valueError (label_too_long_msg p fstype L)) := by
      unfold mkfs_label_arg
      rw [hL]
      dsimp only
      rw [if_pos hlt, if_pos rfl]
    constructor
    · rw [mkfs_cmd_eq env p fstype tool w true (some lab) none false hp hc hw,
        show mkfs_force_arg env fstype true false = .ok [] from rfl, hlabel]
    · exact ⟨"length of fs label for \x27",
        "\x27 exceeds max                                  allowed for fstype \x27",
        "\x27. max is \x27", "\x27", rfl⟩

/-- Witness for `c5_label_truncation`: ext4 (limit 16) with the 17-char
label "toolongname12345X" — non-strict truncates to 16, strict raises. -/
theorem c5_label_truncation_witness :
    (∃ tail,
      (mkfs envXenial (some "/dev/x") "ext4" false
          (some "toolongname12345X") none false).1 =
        .ok (["mkfs.ext4"] ++ ["-L", pyTruncate "toolongname12345X" 16] ++
          tail ++ ["/dev/x"]) ∧
      (pyTruncate "toolongname12345X" 16).length = 16) ∧
    ((mkfs envXenial (some "/dev/x") "ext4" true
        (some "toolongname12345X") none false).1 =
      .error (.valueError (label_too_long_msg "/dev/x" "ext4" 16)) ∧
    ∃ a b c d, label_too_long_msg "/dev/x" "ext4" 16 =
      a ++ "/dev/x" ++ b ++ "ext4" ++ c ++ toString 16 ++ d) :=
  ⟨c5_label_truncation.1 envXenial "/dev/x" "ext4" "mkfs.ext4" "mkfs.ext4"
      "-L" "toolongname12345X" 16 1 rfl rfl rfl rfl rfl rfl (by decide),
    c5_label_truncation.2 envXenial "/dev/x" "ext4" "mkfs.ext4" "mkfs.ext4"
      "toolongname12345X" 16 1 rfl rfl rfl rfl rfl (by decide)⟩

/-- Dropping leading newline characters leaves a list whose head is not a
newline. -/
theorem head?_dropWhile_newline (l : List Char) :
    (l.dropWhile (· = '\n')).head? ≠ some '\n' := by
  induction l with
  | nil => simp [List.dropWhile]
  | cons a l ih =>
    by_cases h : a = '\n'
    · simpa [List.dropWhile_cons, h] using ih
    · simp [List.dropWhile_cons, h]

/-- `rstripNL` leaves no trailing newline character. -/
theorem rstripNL_no_trailing_newline (s : String) :
    (rstripNL s).data.getLast? ≠ some '\n' := by
  show ((s.data.reverse.dropWhile (· = '\n')).reverse).getLast? ≠ some '\n'
  rw [List.getLast?_reverse]
  exact head?_dropWhile_newline _

/-- C7: if the first export produces the key's armoured text (a non-empty
string; an exported empty string counts as absence, cf. the falsiness test
claim), the function returns that text with all trailing newlines stripped
and the trace is the single export call — `gpg_recv_key` and
`gpg_delete_key` are never invoked. -/
theorem c7_present_key_short_circuit :
    ∀ (w : GpgWorld) (k ks s : String), w.exportSubp 0 = .ok s → s ≠ "" →
      gpg_getkeybyid w k ks = (.ok (rstripNL s), [GpgEvent.exportCall k]) ∧
      (rstripNL s).data.getLast? ≠ some '\n' := by
  intro w k ks s hx hs
  refine ⟨?_, rstripNL_no_trailing_newline s⟩
  have h1 : gpg_export_armour w 0 k = (some s, [GpgEvent.exportCall k]) := by
    simp [gpg_export_armour, hx]
  simp [gpg_getkeybyid, h1, truthyStr, hs, pyRstripNL]

/-- A concrete world where the key is present locally from the start. -/
def gpgWorldPresent : GpgWorld :=
  ⟨fun _ => .ok "ARMOURED KEY\n\n", .ok (), .ok ()⟩

/-- Witness for `c7_present_key_short_circuit`. -/
theorem c7_present_key_short_circuit_witness :
    gpg_getkeybyid gpgWorldPresent "0A1B" "keyserver.ubuntu.com" =
      (.ok (rstripNL "ARMOURED KEY\n\n"), [GpgEvent.exportCall "0A1B"]) ∧
    (rstripNL "ARMOURED KEY\n\n").data.getLast? ≠ some '\n' :=
  c7_present_key_short_circuit gpgWorldPresent "0A1B" "keyserver.ubuntu.com"
    "ARMOURED KEY\n\n" rfl (by decide)

/-- C3: if the first export comes back falsy and the receive process fails,
the caller sees the `ValueError` built by `gpg_recv_key`, whose message
contains the key id, the keyserver and the rendered process error, and the
delete call is the last event before the error surfaces. -/
theorem c3_receive_failure_keyfetcherror :
    ∀ (w : GpgWorld) (k ks perr : String),
      truthyStr (gpg_export_armour w 0 k).1 = false →
      w.recvSubp = .error perr →
      gpg_getkeybyid w k ks =
        (.error (.valueError (recv_fail_msg k ks perr)),
          [GpgEvent.exportCall k, GpgEvent.recvCall k ks,
            GpgEvent.deleteCall k]) ∧
      ∃ a b c, recv_fail_msg k ks perr = a ++ k ++ b ++ ks ++ c ++ perr := by
  intro w k ks perr hx hr
  refine ⟨?_, "Failed to import key \"", "\" from server \"", "\" - error ",
    rfl⟩
  have h2 : gpg_recv_key w k ks =
      (.error (.valueError (recv_fail_msg k ks perr)),
        [GpgEvent.recvCall k ks]) := by
    simp [gpg_recv_key, hr]
  have h1 : (gpg_export_armour w 0 k).2 = [GpgEvent.exportCall k] := by
    unfold gpg_export_armour
    cases w.exportSubp 0 <;> rfl
  simp [gpg_getkeybyid, hx, h2, h1, gpg_delete_key]

/-- A concrete world where the key is absent and the keyserver is
unreachable. -/
def gpgWorldRecvFail : GpgWorld :=
  ⟨fun _ => .error "exit 2", .error "connection refused", .ok ()⟩

/-- Witness for `c3_receive_failure_keyfetcherror`. -/
theorem c3_receive_failure_keyfetcherror_witness :
    gpg_getkeybyid gpgWorldRecvFail "0A1B" "keyserver.ubuntu.com" =
      (.error (.valueError (recv_fail_msg "0A1B" "keyserver.ubuntu.com"
          "connection refused")),
        [GpgEvent.exportCall "0A1B",
          GpgEvent.recvCall "0A1B" "keyserver.ubuntu.com",
          GpgEvent.deleteCall "0A1B"]) ∧
    ∃ a b c, recv_fail_msg "0A1B" "keyserver.ubuntu.com" "connection refused" =
      a ++ "0A1B" ++ b ++ "keyserver.ubuntu.com" ++ c ++ "connection refused" :=
  c3_receive_failure_keyfetcherror gpgWorldRecvFail "0A1B"
    "keyserver.ubuntu.com" "connection refused" rfl rfl

/-- The second export invocation always contributes exactly one export
event, whatever its outcome. -/
theorem gpg_export_armour_trace (w : GpgWorld) (n : Nat) (k : String) :
    (gpg_export_armour w n k).2 = [GpgEvent.exportCall k] := by
  unfold gpg_export_armour
  cases w.exportSubp n <;> rfl

/-- C2: when the first export returns null (the export process failed) a
receive attempt is made and the delete call appears exactly once, as the
last event of the run — after the second export and before the function
returns or re-raises, whether the receive and the second export succeed or
not; and when the first export produced the key's armoured text (non-empty;
an exported empty string counts as absence, cf. the falsiness test claim)
no delete call happens at all. -/
theorem c2_delete_cleanup_scope :
    (∀ (w : GpgWorld) (k ks ex : String), w.exportSubp 0 = .error ex →
      (gpg_getkeybyid w k ks).2.count (GpgEvent.deleteCall k) = 1 ∧
      (gpg_getkeybyid w k ks).2.getLast? = some (GpgEvent.deleteCall k)) ∧
    (∀ (w : GpgWorld) (k ks s : String), w.exportSubp 0 = .ok s → s ≠ "" →
      (gpg_getkeybyid w k ks).2.count (GpgEvent.deleteCall k) = 0) := by
  constructor
  · intro w k ks ex hx
    have h1 : gpg_export_armour w 0 k = (none, [GpgEvent.exportCall k]) := by
      simp [gpg_export_armour, hx]
    cases hr : w.recvSubp with
    | ok u =>
      have h2 : gpg_recv_key w k ks = (.ok (), [GpgEvent.recvCall k ks]) := by
        simp [gpg_recv_key, hr]
      have ht : (gpg_getkeybyid w k ks).2 =
          [GpgEvent.exportCall k, GpgEvent.recvCall k ks,
            GpgEvent.exportCall k, GpgEvent.deleteCall k] := by
        simp [gpg_getkeybyid, h1, h2, gpg_export_armour_trace, truthyStr,
          gpg_delete_key]
      rw [ht]
      exact ⟨by simp [List.count_cons], rfl⟩
    | error e =>
      have h2 : gpg_recv_key w k ks =
          (.error (.valueError (recv_fail_msg k ks e)),
            [GpgEvent.recvCall k ks]) := by
        simp [gpg_recv_key, hr]
      have ht : (gpg_getkeybyid w k ks).2 =
          [GpgEvent.exportCall k, GpgEvent.recvCall k ks,
            GpgEvent.deleteCall k] := by
        simp [gpg_getkeybyid, h1, h2, truthyStr, gpg_delete_key]
      rw [ht]
      exact ⟨by simp [List.count_cons], rfl⟩
  · intro w k ks s hx hs
    have h1 : gpg_export_armour w 0 k = (some s, [GpgEvent.exportCall k]) := by
      simp [gpg_export_armour, hx]
    have ht : (gpg_getkeybyid w k ks).2 = [GpgEvent.exportCall k] := by
      simp [gpg_getkeybyid, h1, truthyStr, hs]
    rw [ht]
    simp [List.count_cons]

/-- A concrete world where the key is absent, the receive succeeds and the
second export yields the key. -/
def gpgWorldFetch : GpgWorld :=
  ⟨fun n => if n = 0 then .error "exit 2" else .ok "ARMOURED KEY\n",
    .ok (), .ok ()⟩

/-- Witness for `c2_delete_cleanup_scope` on both branches. -/
theorem c2_delete_cleanup_scope_witness :
    ((gpg_getkeybyid gpgWorldFetch "0A1B" "keyserver.ubuntu.com").2.count
        (GpgEvent.deleteCall "0A1B") = 1 ∧
      (gpg_getkeybyid gpgWorldFetch "0A1B" "keyserver.ubuntu.com").2.getLast? =
        some (GpgEvent.deleteCall "0A1B")) ∧
    (gpg_getkeybyid gpgWorldPresent "0A1B" "keyserver.ubuntu.com").2.count
      (GpgEvent.deleteCall "0A1B") = 0 :=
  ⟨c2_delete_cleanup_scope.1 gpgWorldFetch "0A1B" "keyserver.ubuntu.com"
      "exit 2" rfl,
    c2_delete_cleanup_scope.2 gpgWorldPresent "0A1B" "keyserver.ubuntu.com"
      "ARMOURED KEY\n\n" rfl (by decide)⟩

/-- C9: an exported empty string is treated exactly like a failed export —
the run is indistinguishable from one where the first export returned null
(given the same receive and second-export behaviour), the receive is
attempted and the delete call closes the trace. -/
theorem c9_empty_export_treated_as_absent :
    ∀ (w₁ w₂ : GpgWorld) (k ks ex : String),
      w₁.exportSubp 0 = .ok "" → w₂.exportSubp 0 = .error ex →
      w₁.recvSubp = w₂.recvSubp → w₁.exportSubp 1 = w₂.exportSubp 1 →
      gpg_getkeybyid w₁ k ks = gpg_getkeybyid w₂ k ks ∧
      GpgEvent.recvCall k ks ∈ (gpg_getkeybyid w₁ k ks).2 ∧
      (gpg_getkeybyid w₁ k ks).2.getLast? = some (GpgEvent.deleteCall k) := by
  intro w₁ w₂ k ks ex h1 h2 hrecv hexp
  have e1 : gpg_export_armour w₁ 0 k = (some "", [GpgEvent.exportCall k]) := by
    simp [gpg_export_armour, h1]
  have e2 : gpg_export_armour w₂ 0 k = (none, [GpgEvent.exportCall k]) := by
    simp [gpg_export_armour, h2]
  have e3 : gpg_export_armour w₁ 1 k = gpg_export_armour w₂ 1 k := by
    unfold gpg_export_armour
    rw [hexp]
  cases hr : w₂.recvSubp with
  | ok u =>
    have r1 : gpg_recv_key w₁ k ks = (.ok (), [GpgEvent.recvCall k ks]) := by
      simp [gpg_recv_key, hrecv, hr]
    have r2 : gpg_recv_key w₂ k ks = (.ok (), [GpgEvent.recvCall k ks]) := by
      simp [gpg_recv_key, hr]
    refine ⟨?_, ?_, ?_⟩ <;>
      simp [gpg_getkeybyid, e1, e2, e3, r1, r2, gpg_export_armour_trace,
        truthyStr, gpg_delete_key]
  | error e =>
    have r1 : gpg_recv_key w₁ k ks =
        (.error (.valueError (recv_fail_msg k ks e)),
          [GpgEvent.recvCall k ks]) := by
      simp [gpg_recv_key, hrecv, hr]
    have r2 : gpg_recv_key w₂ k ks =
        (.error (.valueError (recv_fail_msg k ks e)),
          [GpgEvent.recvCall k ks]) := by
      simp [gpg_recv_key, hr]
    refine ⟨?_, ?_, ?_⟩ <;>
      simp [gpg_getkeybyid, e1, e2, r1, r2, truthyStr, gpg_delete_key]

/-- A concrete world where the first export exits zero with empty stdout
and the second export yields the key. -/
def gpgWorldEmptyFirst : GpgWorld :=
  ⟨fun n => if n = 0 then .ok "" else .ok "ARMOURED KEY\n", .ok (), .ok ()⟩

/-- A concrete world identical to `gpgWorldEmptyFirst` except that the
first export fails. -/
def gpgWorldFailFirst : GpgWorld :=
  ⟨fun n => if n = 0 then .error "exit 2" else .ok "ARMOURED KEY\n",
    .ok (), .ok ()⟩

/-- Witness for `c9_empty_export_treated_as_absent`. -/
theorem c9_empty_export_treated_as_absent_witness :
    gpg_getkeybyid gpgWorldEmptyFirst "0A1B" "keyserver.ubuntu.com" =
      gpg_getkeybyid gpgWorldFailFirst "0A1B" "keyserver.ubuntu.com" ∧
    GpgEvent.recvCall "0A1B" "keyserver.ubuntu.com" ∈
      (gpg_getkeybyid gpgWorldEmptyFirst "0A1B" "keyserver.ubuntu.com").2 ∧
    (gpg_getkeybyid gpgWorldEmptyFirst "0A1B"
        "keyserver.ubuntu.com").2.getLast? =
      some (GpgEvent.deleteCall "0A1B") :=
  c9_empty_export_treated_as_absent gpgWorldEmptyFirst gpgWorldFailFirst
    "0A1B" "keyserver.ubuntu.com" "exit 2" rfl rfl rfl rfl

/-- C10: if the receive succeeds but the second export still returns null,
the delete call still happens and the final `armour.rstrip("\n")` is
evaluated on `None`, terminating the call with an `AttributeError` instead
of a normal return; in general every normal return value is the
trailing-newline-stripped text of a successful export. -/
theorem c10_no_normal_null_return :
    (∀ (w : GpgWorld) (k ks e2 : String),
      truthyStr (gpg_export_armour w 0 k).1 = false →
      w.recvSubp = .ok () → w.exportSubp 1 = .error e2 →
      gpg_getkeybyid w k ks =
        (.error (.attributeError
            "\x27NoneType\x27 object has no attribute \x27rstrip\x27"),
          [GpgEvent.exportCall k, GpgEvent.recvCall k ks,
            GpgEvent.exportCall k, GpgEvent.deleteCall k])) ∧
    (∀ (w : GpgWorld) (k ks v : String),
      (gpg_getkeybyid w k ks).1 = .ok v →
      ∃ s, (w.exportSubp 0 = .ok s ∨ w.exportSubp 1 = .ok s) ∧
        v = rstripNL s) := by
  constructor
  · intro w k ks e2 hx hr he
    have h2 : gpg_recv_key w k ks = (.ok (), [GpgEvent.recvCall k ks]) := by
      simp [gpg_recv_key, hr]
    have h3 : gpg_export_armour w 1 k = (none, [GpgEvent.exportCall k]) := by
      simp [gpg_export_armour, he]
    have h1 : (gpg_export_armour w 0 k).2 = [GpgEvent.exportCall k] :=
      gpg_export_armour_trace w 0 k
    simp [gpg_getkeybyid, hx, h1, h2, h3, gpg_delete_key, pyRstripNL]
  · intro w k ks v hv
    cases hx : w.exportSubp 0 with
    | ok s =>
      by_cases hs : s = ""
      · subst hs
        have h1 : gpg_export_armour w 0 k =
            (some "", [GpgEvent.exportCall k]) := by
          simp [gpg_export_armour, hx]
        cases hr : w.recvSubp with
        | ok u =>
          cases he : w.exportSubp 1 with
          | ok t =>
            have h3 : gpg_export_armour w 1 k =
                (some t, [GpgEvent.exportCall k]) := by
              simp [gpg_export_armour, he]
            have hres : (gpg_getkeybyid w k ks).1 = .ok (rstripNL t) := by
              simp [gpg_getkeybyid, h1, h3, gpg_recv_key, hr, truthyStr,
                pyRstripNL]
            rw [hres] at hv
            exact ⟨t, .inr rfl, by simpa using hv.symm⟩
          | error e =>
            have h3 : gpg_export_armour w 1 k =
                (none, [GpgEvent.exportCall k]) := by
              simp [gpg_export_armour, he]
            have hres : (gpg_getkeybyid w k ks).1 = .error (.attributeError
                "\x27NoneType\x27 object has no attribute \x27rstrip\x27") := by
              simp [gpg_getkeybyid, h1, h3, gpg_recv_key, hr, truthyStr,
                pyRstripNL]
            rw [hres] at hv
            exact absurd hv (by simp)
        | error e =>
          have hres : (gpg_getkeybyid w k ks).1 =
              .error (.valueError (recv_fail_msg k ks e)) := by
            simp [gpg_getkeybyid, h1, gpg_recv_key, hr, truthyStr]
          rw [hres] at hv
          exact absurd hv (by simp)
      · have h1 : gpg_export_armour w 0 k =
            (some s, [GpgEvent.exportCall k]) := by
          simp [gpg_export_armour, hx]
        have hres : (gpg_getkeybyid w k ks).1 = .ok (rstripNL s) := by
          simp [gpg_getkeybyid, h1, truthyStr, hs, pyRstripNL]
        rw [hres] at hv
        exact ⟨s, .inl rfl, by simpa using hv.symm⟩
    | error ex =>
      have h1 : gpg_export_armour w 0 k =
          (none, [GpgEvent.exportCall k]) := by
        simp [gpg_export_armour, hx]
      cases hr : w.recvSubp with
      | ok u =>
        cases he : w.exportSubp 1 with
        | ok t =>
          have h3 : gpg_export_armour w 1 k =
              (some t, [GpgEvent.exportCall k]) := by
            simp [gpg_export_armour, he]
          have hres : (gpg_getkeybyid w k ks).1 = .ok (rstripNL t) := by
            simp [gpg_getkeybyid, h1, h3, gpg_recv_key, hr, truthyStr,
              pyRstripNL]
          rw [hres] at hv
          exact ⟨t, .inr rfl, by simpa using hv.symm⟩
        | error e =>
          have h3 : gpg_export_armour w 1 k =
              (none, [GpgEvent.exportCall k]) := by
            simp [gpg_export_armour, he]
          have hres : (gpg_getkeybyid w k ks).1 = .error (.attributeError
              "\x27NoneType\x27 object has no attribute \x27rstrip\x27") := by
            simp [gpg_getkeybyid, h1, h3, gpg_recv_key, hr, truthyStr,
              pyRstripNL]
          rw [hres] at hv
          exact absurd hv (by simp)
      | error e =>
        have hres : (gpg_getkeybyid w k ks).1 =
            .error (.valueError (recv_fail_msg k ks e)) := by
          simp [gpg_getkeybyid, h1, gpg_recv_key, hr, truthyStr]
        rw [hres] at hv
        exact absurd hv (by simp)

/-- A concrete world where the key is absent locally, the receive succeeds,
yet the key still cannot be exported afterwards. -/
def gpgWorldGone : GpgWorld :=
  ⟨fun _ => .error "exit 2", .ok (), .ok ()⟩

/-- Witness for `c10_no_normal_null_return`. -/
theorem c10_no_normal_null_return_witness :
    gpg_getkeybyid gpgWorldGone "0A1B" "keyserver.ubuntu.com" =
      (.error (.attributeError
          "\x27NoneType\x27 object has no attribute \x27rstrip\x27"),
        [GpgEvent.exportCall "0A1B",
          GpgEvent.recvCall "0A1B" "keyserver.ubuntu.com",
          GpgEvent.exportCall "0A1B", GpgEvent.deleteCall "0A1B"]) :=
  c10_no_normal_null_return.1 gpgWorldGone "0A1B" "keyserver.ubuntu.com"
    "exit 2" rfl rfl rfl

end Curtin
